import Mathlib

/-!
Verification development for the Veritas Lens analysis pipeline.

This file embeds the Analysis Orchestration Pipeline and the Report Data
Model of the repository (src/App.tsx, src/types.ts, and the service module
src/unnamed/part_001) as executable Lean definitions, and proves or refutes
the frozen behavioural claims about them.

Modelling conventions:
- JavaScript numbers that the schema declares as NUMBER are modelled as
  `Int` (the claims never involve fractional values; NaN is out of scope).
- JavaScript falsy-coalescing `x || d` is modelled per type by `jsOrNum`,
  `jsOrBool`, `jsOrStr` (0, false and "" are falsy in JavaScript).
- JavaScript object maps are modelled as association lists with
  first-match `List.lookup` semantics (JS objects have unique keys).
- Asynchronous service calls (the digest service, the classification
  service) are fallible collaborators: their outcomes are inputs of the
  orchestrator model, of type `Except String _`.
-/

/-- Mirrors `MediaType` from src/types.ts. -/
inductive MediaType where
  | IMAGE
  | VIDEO
  | AUDIO
  | UNKNOWN
deriving Repr, DecidableEq

/-- Mirrors `ModelConsensus` from src/types.ts (`confidence` is one of the
strings "LOW"/"MEDIUM"/"HIGH" in the source; kept as `String`). -/
structure ModelConsensus where
  modelName : String
  score : Int
  confidence : String
  focusArea : String
deriving Repr, DecidableEq

/-- Mirrors the `suspiciousRegions` element type from src/types.ts. -/
structure SuspiciousRegion where
  x : Int
  y : Int
  width : Int
  height : Int
  label : String
  confidence : Int
deriving Repr, DecidableEq

/-- Mirrors `ForensicReport` from src/types.ts; `metadata` is the
association-list model of `Record<string, string>`. -/
structure ForensicReport where
  id : String
  fileName : String
  fileType : MediaType
  timestamp : String
  fileHash : String
  authenticityScore : Int
  isManipulated : Bool
  manipulationType : List String
  ensembleData : List ModelConsensus
  semanticMismatchDetected : Bool
  semanticAnalysisText : String
  reasoning : String
  suspiciousRegions : List SuspiciousRegion
  metadata : List (String × String)
deriving Repr, DecidableEq

/-- The parsed JSON response body of the classification service, as a
schema-shaped record with every field optional (the raw payload
`jsonResponse` in `analyzeMedia`, src/unnamed/part_001). -/
structure RawJson where
  authenticityScore : Option Int
  isManipulated : Option Bool
  manipulationType : Option (List String)
  ensembleData : Option (List ModelConsensus)
  semanticMismatchDetected : Option Bool
  semanticAnalysisText : Option String
  reasoning : Option String
  suspiciousRegions : Option (List SuspiciousRegion)
  metadata : Option (List (String × String))
deriving Repr, DecidableEq

/-- The `RawJson` with every field absent: the parse of the payload `{}`. -/
def emptyRawJson : RawJson :=
  { authenticityScore := none
    isManipulated := none
    manipulationType := none
    ensembleData := none
    semanticMismatchDetected := none
    semanticAnalysisText := none
    reasoning := none
    suspiciousRegions := none
    metadata := none }

/-- The value returned by `analyzeMedia` (src/unnamed/part_001, the
`Partial<ForensicReport>` return shape): the service itself already
defaults the four sequence/map fields to empty, the rest stay optional. -/
structure RawPayload where
  authenticityScore : Option Int
  isManipulated : Option Bool
  manipulationType : List String
  ensembleData : List ModelConsensus
  semanticMismatchDetected : Option Bool
  semanticAnalysisText : Option String
  reasoning : Option String
  suspiciousRegions : List SuspiciousRegion
  metadata : List (String × String)
deriving Repr, DecidableEq

/-- Embeds the return statement of `analyzeMedia` (src/unnamed/part_001
lines 136-146): `jsonResponse.manipulationType || []` and friends.
A present array is truthy in JavaScript (even when empty), so `x || []`
is exactly `Option.getD x []`. -/
def serviceNormalize (j : RawJson) : RawPayload :=
  { authenticityScore := j.authenticityScore
    isManipulated := j.isManipulated
    manipulationType := j.manipulationType.getD []
    ensembleData := j.ensembleData.getD []
    semanticMismatchDetected := j.semanticMismatchDetected
    semanticAnalysisText := j.semanticAnalysisText
    reasoning := j.reasoning
    suspiciousRegions := j.suspiciousRegions.getD []
    metadata := j.metadata.getD [] }

/-- JavaScript `v || d` on an optional number: `undefined` and `0` are
falsy, every other integer is truthy. -/
def jsOrNum (v : Option Int) (d : Int) : Int :=
  match v with
  | none => d
  | some x => if x = 0 then d else x

/-- JavaScript `v || d` on an optional boolean: `undefined` and `false`
are falsy. -/
def jsOrBool (v : Option Bool) (d : Bool) : Bool :=
  match v with
  | none => d
  | some b => if b then b else d

/-- JavaScript `v || d` on an optional string: `undefined` and `""` are
falsy. -/
def jsOrStr (v : Option String) (d : String) : String :=
  match v with
  | none => d
  | some s => if s = "" then d else s

/-- Two-digit zero padding of a number below 100. -/
def pad2 (n : Nat) : String :=
  if n < 10 then "0" ++ Nat.repr n else Nat.repr n

/-- Embeds `(file.size / 1024 / 1024).toFixed(2)` from src/App.tsx.
For byte counts below 2^53 the JavaScript double quotient by 2^20 is
exact, and `toFixed(2)` rounds it to the nearest hundredth with ties
away from zero; `524288 = 2^20 / 2` realises exactly that rounding. -/
def formatMB (bytes : Nat) : String :=
  let hundredths := (bytes * 100 + 524288) / 1048576
  Nat.repr (hundredths / 100) ++ "." ++ pad2 (hundredths % 100)

/-- Embeds JavaScript `s.slice(-6)`: the last six characters of `s`, or
all of `s` when it is shorter than six characters. -/
def sliceLast6 (s : String) : String :=
  String.mk (s.data.drop (s.data.length - 6))

/-- The decimal digits of `n`, most significant first; `fuel` bounds the
digit count. -/
def natDigitsAux : Nat → Nat → List Char
  | 0, _ => []
  | Nat.succ fuel, n =>
    if n = 0 then []
    else natDigitsAux fuel (n / 10) ++ [Char.ofNat (48 + n % 10)]

/-- Decimal rendering of a natural number (JavaScript
`Number.prototype.toString` for non-negative integers); 32 digits of
fuel cover every value below 10^32, far beyond any millisecond
timestamp. -/
def natToDecimal (n : Nat) : String :=
  if n = 0 then "0" else String.mk (natDigitsAux 32 n)

/-- Embeds the report id construction from src/App.tsx line 164:
`CASE-` followed by `Date.now().toString().slice(-6)`, where `now` is the
millisecond timestamp. -/
def caseId (now : Nat) : String :=
  "CASE-" ++ sliceLast6 (natToDecimal now)

/-- Embeds the media-kind derivation from src/App.tsx lines 153-156:
prefix match of the declared MIME type against image/video/audio. -/
def mediaTypeOf (mime : String) : MediaType :=
  if mime.startsWith "image" then MediaType.IMAGE
  else if mime.startsWith "video" then MediaType.VIDEO
  else if mime.startsWith "audio" then MediaType.AUDIO
  else MediaType.UNKNOWN

/-- Embeds the metadata object spread of src/App.tsx lines 177-181:
`{...aiResult.metadata, originalSize: sz, mimeType: mt}`. The model keeps
the raw entries whose keys are not overridden and appends the two computed
entries; this is lookup-equivalent to the JavaScript spread (which keeps
the overridden keys in place), and key order is not observable through
`List.lookup`. -/
def spreadMeta (raw : List (String × String)) (sz mt : String) : List (String × String) :=
  (raw.filter fun kv => kv.1 != "originalSize" && kv.1 != "mimeType")
    ++ [("originalSize", sz), ("mimeType", mt)]

/-- Property lookup in the association-list model of a JavaScript
string map: the value of the first entry with the given key. -/
def metaGet (m : List (String × String)) (k : String) : Option String :=
  match m with
  | [] => none
  | kv :: rest => if k = kv.1 then some kv.2 else metaGet rest k

/-- The file selected for analysis: name, byte size and declared MIME
type (the fields of the DOM `File` the pipeline reads). -/
structure MediaFile where
  name : String
  size : Nat
  mimeType : String
deriving Repr, DecidableEq

/-- Embeds the `fullReport` construction of src/App.tsx lines 163-182:
the Report Normalizer. `now` is the `Date.now()` value and `iso` the
`new Date().toISOString()` value at construction time. -/
def buildReport (now : Nat) (iso : String) (f : MediaFile) (t : MediaType)
    (hash : String) (ai : RawPayload) : ForensicReport :=
  { id := caseId now
    fileName := f.name
    fileType := t
    timestamp := iso
    fileHash := hash
    authenticityScore := jsOrNum ai.authenticityScore 0
    isManipulated := jsOrBool ai.isManipulated false
    manipulationType := ai.manipulationType
    ensembleData := ai.ensembleData
    semanticMismatchDetected := jsOrBool ai.semanticMismatchDetected false
    semanticAnalysisText := jsOrStr ai.semanticAnalysisText ""
    reasoning := jsOrStr ai.reasoning "Analysis failed."
    suspiciousRegions := ai.suspiciousRegions
    metadata := spreadMeta ai.metadata (formatMB f.size ++ " MB") f.mimeType }

/-- JSON values, for the model of the platform primitive `JSON.parse`
used at src/unnamed/part_001 line 134. Numbers are restricted to
integers (no claim involves fractional values). -/
inductive Json where
  | null
  | bool (b : Bool)
  | num (n : Int)
  | str (s : String)
  | arr (xs : List Json)
  | obj (fields : List (String × Json))
deriving Inhabited

/-- The opening-brace character, written by code point. -/
def lbrace : Char := Char.ofNat 123

/-- The closing-brace character, written by code point. -/
def rbrace : Char := Char.ofNat 125

/-- Skips JSON whitespace. -/
def skipWs : List Char → List Char
  | c :: cs => if c = ' ' ∨ c = '\n' ∨ c = '\t' ∨ c = '\r' then skipWs cs else c :: cs
  | [] => []

/-- Resolves a backslash escape inside a JSON string literal. -/
def escapeChar (c : Char) : Char :=
  if c = 'n' then '\n' else if c = 't' then '\t' else if c = 'r' then '\r' else c

/-- Parses the body of a JSON string literal after the opening quote,
accumulating characters until the closing quote. -/
def parseStrBody : List Char → List Char → Option (String × List Char)
  | _, [] => none
  | acc, c :: rest =>
    if c = '"' then some (String.mk acc.reverse, rest)
    else if c = '\\' then
      match rest with
      | [] => none
      | d :: r2 => parseStrBody (escapeChar d :: acc) r2
    else parseStrBody (c :: acc) rest

/-- Splits a leading run of decimal digits off a character list. -/
def takeDigits : List Char → (List Char × List Char)
  | c :: cs =>
    if c.isDigit then
      let p := takeDigits cs
      (c :: p.1, p.2)
    else ([], c :: cs)
  | [] => ([], [])

/-- Reads a digit run as a natural number. -/
def digitsToNat (ds : List Char) : Nat :=
  ds.foldl (fun a c => a * 10 + (c.toNat - 48)) 0

mutual

/-- Parses one JSON value; `fuel` bounds the nesting depth. -/
def parseVal : Nat → List Char → Option (Json × List Char)
  | 0, _ => none
  | Nat.succ fuel, cs =>
    match skipWs cs with
    | [] => none
    | 'n' :: 'u' :: 'l' :: 'l' :: rest => some (Json.null, rest)
    | 't' :: 'r' :: 'u' :: 'e' :: rest => some (Json.bool true, rest)
    | 'f' :: 'a' :: 'l' :: 's' :: 'e' :: rest => some (Json.bool false, rest)
    | '"' :: rest => (parseStrBody [] rest).map fun p => (Json.str p.1, p.2)
    | '[' :: rest =>
      (match skipWs rest with
       | ']' :: r2 => some (Json.arr [], r2)
       | r2 => (parseElems fuel r2).map fun p => (Json.arr p.1, p.2))
    | '-' :: rest =>
      let p := takeDigits rest
      if p.1.isEmpty then none
      else some (Json.num (-(Int.ofNat (digitsToNat p.1))), p.2)
    | c :: rest =>
      if c = lbrace then
        match skipWs rest with
        | [] => none
        | d :: r2 =>
          if d = rbrace then some (Json.obj [], r2)
          else (parseFields fuel (d :: r2)).map fun p => (Json.obj p.1, p.2)
      else if c.isDigit then
        let p := takeDigits (c :: rest)
        some (Json.num (Int.ofNat (digitsToNat p.1)), p.2)
      else none

/-- Parses the comma-separated elements of a non-empty JSON array, up to
and including the closing bracket. -/
def parseElems : Nat → List Char → Option (List Json × List Char)
  | 0, _ => none
  | Nat.succ fuel, cs =>
    match parseVal fuel cs with
    | none => none
    | some (v, rest) =>
      match skipWs rest with
      | ',' :: r2 => (parseElems fuel r2).map fun p => (v :: p.1, p.2)
      | ']' :: r2 => some ([v], r2)
      | _ => none

/-- Parses the key-value members of a non-empty JSON object, up to and
including the closing brace. -/
def parseFields : Nat → List Char → Option (List (String × Json) × List Char)
  | 0, _ => none
  | Nat.succ fuel, cs =>
    match skipWs cs with
    | '"' :: rest =>
      (match parseStrBody [] rest with
       | none => none
       | some (key, r2) =>
         match skipWs r2 with
         | ':' :: r3 =>
           (match parseVal fuel r3 with
            | none => none
            | some (v, r4) =>
              match skipWs r4 with
              | ',' :: r5 => (parseFields fuel r5).map fun p => ((key, v) :: p.1, p.2)
              | d :: r5 => if d = rbrace then some ([(key, v)], r5) else none
              | [] => none)
         | _ => none)
    | _ => none

end

/-- Model of the platform primitive `JSON.parse` (src/unnamed/part_001
line 134): `some` of the parsed value on well-formed JSON text, `none`
where `JSON.parse` would throw a `SyntaxError`. -/
def jsonParseModel (s : String) : Option Json :=
  match parseVal (s.length + 1) s.data with
  | some (v, rest) => if skipWs rest = [] then some v else none
  | none => none

/-- Looks up a property of a JSON object; any other value has none. -/
def jGetField (j : Json) (k : String) : Option Json :=
  match j with
  | Json.obj fs => fs.lookup k
  | _ => none

/-- Reads an optional JSON field as a number. -/
def jAsNum : Option Json → Option Int
  | some (Json.num n) => some n
  | _ => none

/-- Reads an optional JSON field as a boolean. -/
def jAsBool : Option Json → Option Bool
  | some (Json.bool b) => some b
  | _ => none

/-- Reads an optional JSON field as a string. -/
def jAsStr : Option Json → Option String
  | some (Json.str s) => some s
  | _ => none

/-- Reads an optional JSON field as an array of strings. -/
def jAsStrList : Option Json → Option (List String)
  | some (Json.arr xs) =>
    xs.mapM fun x => match x with | Json.str s => some s | _ => none
  | _ => none

/-- Reads one ensemble entry from a JSON object. -/
def jAsConsensus (x : Json) : Option ModelConsensus := do
  let mn ← jAsStr (jGetField x "modelName")
  let sc ← jAsNum (jGetField x "score")
  let cf ← jAsStr (jGetField x "confidence")
  let fa ← jAsStr (jGetField x "focusArea")
  pure ⟨mn, sc, cf, fa⟩

/-- Reads an optional JSON field as an ensemble-data array. -/
def jAsEnsemble : Option Json → Option (List ModelConsensus)
  | some (Json.arr xs) => xs.mapM jAsConsensus
  | _ => none

/-- Reads one suspicious region from a JSON object. -/
def jAsRegion (x : Json) : Option SuspiciousRegion := do
  let rx ← jAsNum (jGetField x "x")
  let ry ← jAsNum (jGetField x "y")
  let w ← jAsNum (jGetField x "width")
  let h ← jAsNum (jGetField x "height")
  let lb ← jAsStr (jGetField x "label")
  let cf ← jAsNum (jGetField x "confidence")
  pure ⟨rx, ry, w, h, lb, cf⟩

/-- Reads an optional JSON field as a suspicious-region array. -/
def jAsRegions : Option Json → Option (List SuspiciousRegion)
  | some (Json.arr xs) => xs.mapM jAsRegion
  | _ => none

/-- Reads an optional JSON field as a string-to-string map. -/
def jAsMeta : Option Json → Option (List (String × String))
  | some (Json.obj fs) =>
    fs.mapM fun kv => match kv.2 with | Json.str s => some (kv.1, s) | _ => none
  | _ => none

/-- Projects a parsed JSON response onto the schema-shaped `RawJson`
record (the property accesses `jsonResponse.authenticityScore` etc. of
src/unnamed/part_001 lines 136-146); a field whose JSON value does not
match the declared response schema is treated as absent. -/
def jsonToRawJson (j : Json) : RawJson :=
  { authenticityScore := jAsNum (jGetField j "authenticityScore")
    isManipulated := jAsBool (jGetField j "isManipulated")
    manipulationType := jAsStrList (jGetField j "manipulationType")
    ensembleData := jAsEnsemble (jGetField j "ensembleData")
    semanticMismatchDetected := jAsBool (jGetField j "semanticMismatchDetected")
    semanticAnalysisText := jAsStr (jGetField j "semanticAnalysisText")
    reasoning := jAsStr (jGetField j "reasoning")
    suspiciousRegions := jAsRegions (jGetField j "suspiciousRegions")
    metadata := jAsMeta (jGetField j "metadata") }

/-- The inline-data part produced by `fileToGenerativePart`
(src/unnamed/part_001): base64 data plus the declared MIME type. -/
structure FilePart where
  data : String
  mimeType : String
deriving Repr, DecidableEq

/-- Embeds `const GEMINI_API_KEY = process.env.API_KEY || ''`
(src/unnamed/part_001 line 4): an unset or empty environment value
yields the empty key. -/
def geminiApiKey (envVal : Option String) : String :=
  envVal.getD ""

/-- Embeds `analyzeMedia` from src/unnamed/part_001: the missing-key
guard, then the file read (`fileToGenerativePart`), then the remote call
whose response text is parsed with `JSON.parse(response.text || '{}')`,
and finally the service-side defaulting of the parsed payload. The file
read and the remote call are fallible collaborators supplied as
`Except` inputs; an unparseable non-empty response text makes
`JSON.parse` throw, modelled as the `SyntaxError` branch. -/
def analyzeMedia (apiKey : String) (filePart : Except String FilePart)
    (responseText : Except String String) : Except String RawPayload :=
  if apiKey = "" then Except.error "API Key is missing."
  else
    match filePart with
    | Except.error e => Except.error e
    | Except.ok _ =>
      match responseText with
      | Except.error e => Except.error e
      | Except.ok t =>
        match jsonParseModel (if t = "" then "\x7b\x7d" else t) with
        | none => Except.error "SyntaxError: JSON parse failure"
        | some j => Except.ok (serviceNormalize (jsonToRawJson j))

/-- Mirrors `AnalysisState` from src/types.ts. -/
structure AnalysisState where
  isAnalyzing : Bool
  progress : Nat
  currentStep : String
  logs : List String
deriving Repr, DecidableEq

/-- The environment of one invocation of `runAnalysis`: the outcomes of
the two fallible collaborator calls (`calculateFileHash` and
`analyzeMedia`), the `Date.now()` and `toISOString()` values read during
report construction, and the wall-clock strings
(`new Date().toLocaleTimeString()`) stamped by the k-th `addLog` call. -/
structure RunEnv where
  hashResult : Except String String
  classifyResult : Except String RawPayload
  now : Nat
  iso : String
  clock : Nat → String

/-- The timestamped log line produced by `addLog` (src/App.tsx lines
113-118) for the k-th log call of a run. -/
def stamp (env : RunEnv) (k : Nat) (msg : String) : String :=
  "[" ++ env.clock k ++ "] " ++ msg

/-- Appends one line to the log (the state update inside `addLog`). -/
def pushLog (s : AnalysisState) (line : String) : AnalysisState :=
  { s with logs := s.logs ++ [line] }

/-- The outcome of one `runAnalysis` invocation: the final
`AnalysisState`, the published report slot (`setReport`), and the
sequence of `AnalysisState` snapshots observable after each state
update. -/
structure RunResult where
  finalState : AnalysisState
  report : Option ForensicReport
  trace : List AnalysisState

/-- The catch block of `runAnalysis` (src/App.tsx lines 189-193): append
a log line carrying the stringified error, then clear `isAnalyzing`;
`currentStep`, `progress` and the report slot are left untouched. -/
def failWith (env : RunEnv) (k : Nat) (err : String) (s : AnalysisState)
    (r0 : Option ForensicReport) (tr : List AnalysisState) : RunResult :=
  let sE := pushLog s (stamp env k ("CRITICAL ERROR: " ++ err))
  let sF := { sE with isAnalyzing := false }
  ⟨sF, r0, tr ++ [sE, sF]⟩

/-- Embeds `runAnalysis` from src/App.tsx lines 130-194. `file` is the
currently selected file (`none` hits the `if (!file) return` guard),
`prev` the `AnalysisState` at invocation time and `r0` the currently
published report. The staged progress/step updates, the log lines and
the two collaborator calls follow the source line by line; `ctx` is the
context claim forwarded to the classification call, whose outcome the
environment carries. -/
def runAnalysis (env : RunEnv) (file : Option MediaFile) (_ctx : String)
    (prev : AnalysisState) (r0 : Option ForensicReport) : RunResult :=
  match file with
  | none => ⟨prev, r0, []⟩
  | some f =>
    let s0 : AnalysisState := ⟨true, 0, "INIT", ["Initializing core modules..."]⟩
    let s1 := pushLog s0 (stamp env 0 ("Hashing " ++ f.name ++ " (" ++ formatMB f.size ++ "MB)..."))
    match env.hashResult with
    | Except.error e => failWith env 1 e s1 r0 [s0, s1]
    | Except.ok hash =>
      let s2 := { s1 with progress := 20, currentStep := "HASHING" }
      let s3 := pushLog s2 (stamp env 1 ("SHA-256: " ++ hash.take 16 ++ "..."))
      let s4 := pushLog s3 (stamp env 2 "Loading FaceForensics++ (Xception) weights...")
      let s5 := { s4 with progress := 40, currentStep := "LOADING_MODELS" }
      let s6 := pushLog s5 (stamp env 3 "Initializing DeepFake-o-Matic ensemble...")
      let s7 := { s6 with progress := 50, currentStep := "LOADING_MODELS" }
      let s8 := pushLog s7 (stamp env 4 "Sending tensors to analysis engine...")
      let t := mediaTypeOf f.mimeType
      match env.classifyResult with
      | Except.error e => failWith env 5 e s8 r0 [s0, s1, s2, s3, s4, s5, s6, s7, s8]
      | Except.ok ai =>
        let s9 := { s8 with progress := 90, currentStep := "INFERENCE" }
        let s10 := pushLog s9 (stamp env 5 "Inference complete. Aggregating results...")
        let rep := buildReport env.now env.iso f t hash ai
        let s11 := { s10 with progress := 100, currentStep := "COMPLETE", isAnalyzing := false }
        let s12 := pushLog s11 (stamp env 6 "Report generated successfully.")
        ⟨s12, some rep, [s0, s1, s2, s3, s4, s5, s6, s7, s8, s9, s10, s11, s12]⟩

/-- The idle `AnalysisState` created on mount (src/App.tsx lines 95-100). -/
def idle0 : AnalysisState := ⟨false, 0, "IDLE", []⟩

/-- An `AnalysisState` in the middle of a run, for re-entrancy checks. -/
def sBusy : AnalysisState := ⟨true, 50, "LOADING_MODELS", ["Initializing core modules..."]⟩

/-- The sample file of the spec scenarios: 2 MiB PNG. -/
def fB : MediaFile := ⟨"sample.png", 2097152, "image/png"⟩

/-- A fixed wall clock for concrete runs. -/
def clock0 : Nat → String := fun _ => "12:00:00"

/-- The fully defaulted classification payload. -/
def payloadA : RawPayload := serviceNormalize emptyRawJson

/-- A run environment in which both collaborators succeed. -/
def envA : RunEnv :=
  ⟨Except.ok "aaaabbbbccccddddeeeeffff0000111122223333444455556666777788889999",
   Except.ok payloadA, 1234567890123, "2026-10-12T00:00:00.000Z", clock0⟩

/-- A run environment in which the hash succeeds and the classification
service rejects with "network timeout". -/
def envB : RunEnv :=
  ⟨Except.ok "aaaa", Except.error "network timeout", 1234567890123,
   "2026-10-12T00:00:00.000Z", clock0⟩

/-- A previously published report from an earlier successful run. -/
def rep0 : ForensicReport :=
  ⟨"CASE-890123", "old.png", MediaType.IMAGE, "2026-10-11T00:00:00.000Z",
   "ffff", 90, false, [], [], false, "", "No anomalies detected.", [], []⟩

/-- A concrete inline-data file part. -/
def fp0 : FilePart := ⟨"QUJD", "image/png"⟩

/-- A payload whose raw metadata tries to override the computed keys. -/
def aiMeta : RawPayload :=
  { payloadA with
    metadata := [("originalSize", "999 MB"), ("mimeType", "text/evil"),
                 ("estimatedDevice", "iPhone 15")] }

/-- A raw payload carrying out-of-range numeric values. -/
def jOut : RawJson :=
  { emptyRawJson with
    authenticityScore := some 150
    suspiciousRegions := some [⟨150, -20, 300, 50, "face", 250⟩] }

/-- Lookup through the metadata spread: the two computed keys always
resolve to the computed values, every other key resolves in the raw
payload's map. -/
theorem spreadMeta_lookup (l : List (String × String)) (sz mt k : String) :
    metaGet (spreadMeta l sz mt) k =
      if k = "originalSize" then some sz
      else if k = "mimeType" then some mt
      else metaGet l k := by
  induction l with
  | nil =>
    by_cases h1 : k = "originalSize" <;> by_cases h2 : k = "mimeType" <;>
      simp [spreadMeta, metaGet, h1, h2]
  | cons hd tl ih =>
    by_cases h3 : hd.1 = "originalSize" <;> by_cases h4 : hd.1 = "mimeType" <;>
      by_cases h5 : k = hd.1 <;>
        simp_all [spreadMeta, metaGet, List.filter_cons, h3, h4, h5]

/-- Cancelling a common prefix of a string equation. -/
theorem string_append_right_inj (s a b : String) : s ++ a = s ++ b ↔ a = b := by
  constructor
  · intro h
    have hd := congrArg String.data h
    rw [String.data_append, String.data_append] at hd
    exact String.ext (List.append_cancel_left hd)
  · intro h
    rw [h]

/-- C1 counterexample: with a successful hash and a classification
failure, the final `currentStep` is the last stage value set before the
failure, "LOADING_MODELS" — the pipeline never assigns "FAILED". -/
theorem c1_no_failed_transition :
    (runAnalysis envB (some fB) "" idle0 none).finalState.currentStep = "LOADING_MODELS" ∧
    ("LOADING_MODELS" : String) ≠ "FAILED" := by
  exact ⟨rfl, by decide⟩

/-- C1 (amended): on any stage failure (digest or classification) the
pipeline appends a log line carrying the error detail, sets `isRunning`
to false and publishes no report, but `currentStage` is left at the last
value set before the failure ("INIT" for a digest failure,
"LOADING_MODELS" for a classification failure) rather than "FAILED". -/
theorem c1_failure_behavior (env : RunEnv) (f : MediaFile) (ctx : String)
    (prev : AnalysisState) (r0 : Option ForensicReport) :
    (∀ e, env.hashResult = Except.error e →
      (runAnalysis env (some f) ctx prev r0).finalState.isAnalyzing = false ∧
      (runAnalysis env (some f) ctx prev r0).report = r0 ∧
      (runAnalysis env (some f) ctx prev r0).finalState.currentStep = "INIT" ∧
      ∃ ts, ("[" ++ ts ++ "] " ++ ("CRITICAL ERROR: " ++ e)) ∈
        (runAnalysis env (some f) ctx prev r0).finalState.logs) ∧
    (∀ h e, env.hashResult = Except.ok h → env.classifyResult = Except.error e →
      (runAnalysis env (some f) ctx prev r0).finalState.isAnalyzing = false ∧
      (runAnalysis env (some f) ctx prev r0).report = r0 ∧
      (runAnalysis env (some f) ctx prev r0).finalState.currentStep = "LOADING_MODELS" ∧
      ∃ ts, ("[" ++ ts ++ "] " ++ ("CRITICAL ERROR: " ++ e)) ∈
        (runAnalysis env (some f) ctx prev r0).finalState.logs) := by
  constructor
  · intro e he
    refine ⟨?_, ?_, ?_, ⟨env.clock 1, ?_⟩⟩ <;>
      simp [runAnalysis, he, failWith, pushLog, stamp]
  · intro h e hh hc
    refine ⟨?_, ?_, ?_, ⟨env.clock 5, ?_⟩⟩ <;>
      simp [runAnalysis, hh, hc, failWith, pushLog, stamp]

/-- C1 witness: the amended failure behaviour at the concrete
network-timeout scenario. -/
theorem c1_failure_behavior_witness :
    (runAnalysis envB (some fB) "" idle0 none).finalState.isAnalyzing = false ∧
    (runAnalysis envB (some fB) "" idle0 none).report = none ∧
    (runAnalysis envB (some fB) "" idle0 none).finalState.currentStep = "LOADING_MODELS" ∧
    ∃ ts, ("[" ++ ts ++ "] " ++ ("CRITICAL ERROR: " ++ "network timeout")) ∈
      (runAnalysis envB (some fB) "" idle0 none).finalState.logs :=
  (c1_failure_behavior envB fB "" idle0 none).2 "aaaa" "network timeout" rfl rfl

/-- C2 counterexample: invoking `runAnalysis` while a run is in flight
(`isAnalyzing = true`) is not rejected — it resets the `AnalysisState`,
an observable effect. -/
theorem c2_reentrant_start_has_effect :
    sBusy.isAnalyzing = true ∧
    (runAnalysis envA (some fB) "" sBusy none).finalState ≠ sBusy ∧
    (runAnalysis envA (some fB) "" sBusy none).finalState.logs ≠ sBusy.logs := by
  refine ⟨rfl, ?_, ?_⟩ <;> decide

/-- C2 (amended): the only guard in `runAnalysis` is file presence: with
no file selected the invocation has no effect at all, and with a file
selected the run proceeds identically whatever the prior
`AnalysisState` (in particular whether or not `isAnalyzing` is true),
resetting the state; single-flight protection lives in the view layer,
which does not render the trigger while a run is in flight. -/
theorem c2_guard_only_checks_file (env : RunEnv) (ctx : String)
    (prev prev' : AnalysisState) (r0 : Option ForensicReport) (f : MediaFile) :
    runAnalysis env none ctx prev r0 = ⟨prev, r0, []⟩ ∧
    runAnalysis env (some f) ctx prev r0 = runAnalysis env (some f) ctx prev' r0 :=
  ⟨rfl, rfl⟩

/-- C3: every field absent from the raw classification payload is
replaced by its type-correct default in the published report; with the
empty payload the metadata holds exactly the two computed keys. -/
theorem c3_missing_fields_defaulted (now : Nat) (iso : String) (f : MediaFile)
    (t : MediaType) (hash : String) (j : RawJson) :
    (j.authenticityScore = none →
      (buildReport now iso f t hash (serviceNormalize j)).authenticityScore = 0) ∧
    (j.isManipulated = none →
      (buildReport now iso f t hash (serviceNormalize j)).isManipulated = false) ∧
    (j.reasoning = none →
      (buildReport now iso f t hash (serviceNormalize j)).reasoning = "Analysis failed.") ∧
    (j.manipulationType = none →
      (buildReport now iso f t hash (serviceNormalize j)).manipulationType = []) ∧
    (j.ensembleData = none →
      (buildReport now iso f t hash (serviceNormalize j)).ensembleData = []) ∧
    (j.suspiciousRegions = none →
      (buildReport now iso f t hash (serviceNormalize j)).suspiciousRegions = []) ∧
    (j.semanticAnalysisText = none →
      (buildReport now iso f t hash (serviceNormalize j)).semanticAnalysisText = "") ∧
    (j.semanticMismatchDetected = none →
      (buildReport now iso f t hash (serviceNormalize j)).semanticMismatchDetected = false) ∧
    (j.metadata = none →
      (buildReport now iso f t hash (serviceNormalize j)).metadata =
        [("originalSize", formatMB f.size ++ " MB"), ("mimeType", f.mimeType)]) := by
  refine ⟨?_, ?_, ?_, ?_, ?_, ?_, ?_, ?_, ?_⟩ <;> intro h <;>
    simp [buildReport, serviceNormalize, jsOrNum, jsOrBool, jsOrStr, spreadMeta, h]

/-- C3 witness: the empty payload yields the fully defaulted report. -/
theorem c3_missing_fields_defaulted_witness :
    (buildReport 1234567890123 "2026-10-12T00:00:00.000Z" fB MediaType.IMAGE "ffff"
      (serviceNormalize emptyRawJson)).authenticityScore = 0 ∧
    (buildReport 1234567890123 "2026-10-12T00:00:00.000Z" fB MediaType.IMAGE "ffff"
      (serviceNormalize emptyRawJson)).isManipulated = false ∧
    (buildReport 1234567890123 "2026-10-12T00:00:00.000Z" fB MediaType.IMAGE "ffff"
      (serviceNormalize emptyRawJson)).reasoning = "Analysis failed." ∧
    (buildReport 1234567890123 "2026-10-12T00:00:00.000Z" fB MediaType.IMAGE "ffff"
      (serviceNormalize emptyRawJson)).manipulationType = [] ∧
    (buildReport 1234567890123 "2026-10-12T00:00:00.000Z" fB MediaType.IMAGE "ffff"
      (serviceNormalize emptyRawJson)).ensembleData = [] ∧
    (buildReport 1234567890123 "2026-10-12T00:00:00.000Z" fB MediaType.IMAGE "ffff"
      (serviceNormalize emptyRawJson)).suspiciousRegions = [] ∧
    (buildReport 1234567890123 "2026-10-12T00:00:00.000Z" fB MediaType.IMAGE "ffff"
      (serviceNormalize emptyRawJson)).semanticAnalysisText = "" ∧
    (buildReport 1234567890123 "2026-10-12T00:00:00.000Z" fB MediaType.IMAGE "ffff"
      (serviceNormalize emptyRawJson)).semanticMismatchDetected = false ∧
    (buildReport 1234567890123 "2026-10-12T00:00:00.000Z" fB MediaType.IMAGE "ffff"
      (serviceNormalize emptyRawJson)).metadata =
      [("originalSize", formatMB fB.size ++ " MB"), ("mimeType", fB.mimeType)] := by
  obtain ⟨h1, h2, h3, h4, h5, h6, h7, h8, h9⟩ :=
    c3_missing_fields_defaulted 1234567890123 "2026-10-12T00:00:00.000Z" fB
      MediaType.IMAGE "ffff" emptyRawJson
  exact ⟨h1 rfl, h2 rfl, h3 rfl, h4 rfl, h5 rfl, h6 rfl, h7 rfl, h8 rfl, h9 rfl⟩

/-- C4: the report's metadata resolves the two computed keys to the
computed file size and MIME type, overriding any same-named raw entries,
and resolves every other key exactly as the raw payload's map does. -/
theorem c4_metadata_override (now : Nat) (iso : String) (f : MediaFile)
    (t : MediaType) (hash : String) (ai : RawPayload) :
    metaGet (buildReport now iso f t hash ai).metadata "originalSize" =
      some (formatMB f.size ++ " MB") ∧
    metaGet (buildReport now iso f t hash ai).metadata "mimeType" = some f.mimeType ∧
    ∀ k, k ≠ "originalSize" → k ≠ "mimeType" →
      metaGet (buildReport now iso f t hash ai).metadata k = metaGet ai.metadata k := by
  refine ⟨?_, ?_, ?_⟩
  · simp [buildReport, spreadMeta_lookup]
  · simp [buildReport, spreadMeta_lookup]
  · intro k h1 h2
    simp [buildReport, spreadMeta_lookup, h1, h2]

/-- C4 witness: a raw payload that tries to smuggle its own
`originalSize` and `mimeType` values is overridden by the computed ones,
while its other entry survives. -/
theorem c4_metadata_override_witness :
    metaGet (buildReport 1 "iso" fB MediaType.IMAGE "h" aiMeta).metadata "originalSize" =
      some (formatMB fB.size ++ " MB") ∧
    metaGet (buildReport 1 "iso" fB MediaType.IMAGE "h" aiMeta).metadata "mimeType" =
      some fB.mimeType ∧
    metaGet (buildReport 1 "iso" fB MediaType.IMAGE "h" aiMeta).metadata "estimatedDevice" =
      metaGet aiMeta.metadata "estimatedDevice" := by
  obtain ⟨h1, h2, h3⟩ := c4_metadata_override 1 "iso" fB MediaType.IMAGE "h" aiMeta
  exact ⟨h1, h2, h3 "estimatedDevice" (by decide) (by decide)⟩

/-- C5 counterexample: a non-empty, unparseable response text is not
treated as the empty object — `analyzeMedia` propagates the parse error
(failing the run) instead of returning the fully defaulted payload. -/
theorem c5_unparseable_text_fails_run :
    analyzeMedia "k" (Except.ok fp0) (Except.ok "garbage") =
      Except.error "SyntaxError: JSON parse failure" ∧
    analyzeMedia "k" (Except.ok fp0) (Except.ok "garbage") ≠
      Except.ok (serviceNormalize emptyRawJson) :=
  ⟨rfl, fun h => Except.noConfusion h⟩

/-- C5 (amended): only an empty (absent) response text is replaced by
the literal empty-object text and yields the fully defaulted payload;
a non-empty text that fails to parse makes the call throw, failing the
run, rather than being treated as an empty object. -/
theorem c5_empty_text_only_defaulted (key : String) (fp : FilePart)
    (hk : key ≠ "") :
    analyzeMedia key (Except.ok fp) (Except.ok "") =
      Except.ok (serviceNormalize emptyRawJson) ∧
    analyzeMedia key (Except.ok fp) (Except.ok "garbage") =
      Except.error "SyntaxError: JSON parse failure" := by
  constructor
  · unfold analyzeMedia
    rw [if_neg hk]
    rfl
  · unfold analyzeMedia
    rw [if_neg hk]
    rfl

/-- C5 witness: the amended parse behaviour with a concrete key and
file part. -/
theorem c5_empty_text_only_defaulted_witness :
    ("k" : String) ≠ "" ∧
    analyzeMedia "k" (Except.ok fp0) (Except.ok "") =
      Except.ok (serviceNormalize emptyRawJson) ∧
    analyzeMedia "k" (Except.ok fp0) (Except.ok "garbage") =
      Except.error "SyntaxError: JSON parse failure" := by
  have h := c5_empty_text_only_defaulted "k" fp0 (by decide)
  exact ⟨by decide, h.1, h.2⟩

/-- C6: across the snapshots of one successful run, `progress` is
non-decreasing, and its distinct values in order of first occurrence are
exactly 0, 20, 40, 50, 90, 100. -/
theorem c6_progress_monotone_sequence (env : RunEnv) (f : MediaFile)
    (ctx : String) (prev : AnalysisState) (r0 : Option ForensicReport)
    (h : String) (ai : RawPayload)
    (hh : env.hashResult = Except.ok h) (hc : env.classifyResult = Except.ok ai) :
    List.Sorted (fun a b => a ≤ b)
      (((runAnalysis env (some f) ctx prev r0).trace).map AnalysisState.progress) ∧
    (((runAnalysis env (some f) ctx prev r0).trace).map AnalysisState.progress).dedup =
      [0, 20, 40, 50, 90, 100] := by
  have ht : ((runAnalysis env (some f) ctx prev r0).trace).map AnalysisState.progress =
      [0, 0, 20, 20, 20, 40, 40, 50, 50, 90, 90, 100, 100] := by
    simp [runAnalysis, hh, hc, pushLog]
  rw [ht]
  exact ⟨by decide, by decide⟩

/-- C6 witness: the progress sequence of a concrete successful run. -/
theorem c6_progress_monotone_sequence_witness :
    List.Sorted (fun a b => a ≤ b)
      (((runAnalysis envA (some fB) "" idle0 none).trace).map AnalysisState.progress) ∧
    (((runAnalysis envA (some fB) "" idle0 none).trace).map AnalysisState.progress).dedup =
      [0, 20, 40, 50, 90, 100] :=
  c6_progress_monotone_sequence envA fB "" idle0 none
    "aaaabbbbccccddddeeeeffff0000111122223333444455556666777788889999" payloadA rfl rfl

/-- C7: when the classification service fails after a successful hash,
the published report slot is exactly what it was before the run — a
failed run never clears or modifies a prior report. -/
theorem c7_failed_run_preserves_report (env : RunEnv) (f : MediaFile)
    (ctx : String) (prev : AnalysisState) (r0 : Option ForensicReport)
    (h e : String)
    (hh : env.hashResult = Except.ok h) (hc : env.classifyResult = Except.error e) :
    (runAnalysis env (some f) ctx prev r0).report = r0 := by
  simp [runAnalysis, hh, hc, failWith]

/-- C7 witness: the network-timeout run leaves the earlier report
published. -/
theorem c7_failed_run_preserves_report_witness :
    (runAnalysis envB (some fB) "" idle0 (some rep0)).report = some rep0 :=
  c7_failed_run_preserves_report envB fB "" idle0 (some rep0) "aaaa"
    "network timeout" rfl rfl

/-- C8 counterexample: two distinct run timestamps one million
milliseconds apart produce the same report id — the id is not unique
per run within a session. -/
theorem c8_id_collision :
    (1000000000000 : Nat) ≠ 1000001000000 ∧
    caseId 1000000000000 = caseId 1000001000000 := by
  exact ⟨by decide, rfl⟩

/-- C8 (amended): the report id is "CASE-" followed by the last six
characters of the decimal millisecond timestamp, so two runs receive
the same id exactly when those six-character suffixes coincide — which
recurs (for example for timestamps 10^6 ms apart), so ids are not
guaranteed unique within a session and the scheme is not
collision-resistant. -/
theorem c8_id_determined_by_suffix (t1 t2 : Nat) :
    caseId t1 = caseId t2 ↔
      sliceLast6 (natToDecimal t1) = sliceLast6 (natToDecimal t2) := by
  unfold caseId
  exact string_append_right_inj "CASE-" (sliceLast6 (natToDecimal t1))
    (sliceLast6 (natToDecimal t2))

/-- C9: a present numeric field whose value lies outside 0..100 reaches
the published report unchanged — no clamping or validation happens
beyond defaulting; suspicious regions pass through verbatim. -/
theorem c9_out_of_range_passthrough (now : Nat) (iso : String) (f : MediaFile)
    (t : MediaType) (hash : String) (j : RawJson) (v : Int)
    (rs : List SuspiciousRegion)
    (hv : j.authenticityScore = some v) (hout : v < 0 ∨ 100 < v)
    (hr : j.suspiciousRegions = some rs) :
    (buildReport now iso f t hash (serviceNormalize j)).authenticityScore = v ∧
    (buildReport now iso f t hash (serviceNormalize j)).suspiciousRegions = rs := by
  have hvz : v ≠ 0 := by rcases hout with hlt | hgt <;> omega
  constructor
  · simp [buildReport, serviceNormalize, jsOrNum, hv, hvz]
  · simp [buildReport, serviceNormalize, hr]

/-- C9 witness: a score of 150 and a region with out-of-range
coordinates survive normalization unchanged. -/
theorem c9_out_of_range_passthrough_witness :
    (buildReport 1 "iso" fB MediaType.IMAGE "h" (serviceNormalize jOut)).authenticityScore = 150 ∧
    (buildReport 1 "iso" fB MediaType.IMAGE "h" (serviceNormalize jOut)).suspiciousRegions =
      [⟨150, -20, 300, 50, "face", 250⟩] :=
  c9_out_of_range_passthrough 1 "iso" fB MediaType.IMAGE "h" jOut 150
    [⟨150, -20, 300, 50, "face", 250⟩] rfl (Or.inr (by decide)) rfl

/-- C10: with an unset or empty API key environment value the key is
empty, and `analyzeMedia` then throws "API Key is missing." whatever the
file-read outcome and whatever the remote service would have answered —
the guard fires before the file's bytes are read and before the service
is contacted, for every input file. -/
theorem c10_missing_key_guard :
    geminiApiKey none = "" ∧ geminiApiKey (some "") = "" ∧
    ∀ (fr1 fr2 : Except String FilePart) (rt1 rt2 : Except String String),
      analyzeMedia (geminiApiKey none) fr1 rt1 = Except.error "API Key is missing." ∧
      analyzeMedia (geminiApiKey none) fr1 rt1 = analyzeMedia (geminiApiKey none) fr2 rt2 :=
  ⟨rfl, rfl, fun _ _ _ _ => ⟨rfl, rfl⟩⟩
